import Mathlib

set_option linter.unusedVariables false
set_option linter.unnecessarySeqFocus false

namespace TrackEnrich

/-! Shallow embedding of `track_metadata_enrichment.py`.

The network and the mutagen tag codec are external collaborators: every
HTTP request the script issues is modelled by a `NetResponse` oracle value
supplied in the environment, and the file's tag store by a `TrackMetadata`
record plus a `WriterEnv` describing whether the file can be re-opened and
saved.  All pure logic (truthiness of the Python values involved, the merge
order, the mood tables, the status dictionaries) is translated line by line
from the source. -/

/-- Tag record extracted from an audio file by `extract_metadata`.
A field the file does not carry is the empty string: `extract_metadata`
returns `tags.get(key, [''])[0] if tags.get(key) else ''` per field, and an
unreadable file yields `{}`, whose `.get(field, '')` lookups in
`process_file` are also `''`; both cases are the all-empty record here. -/
structure TrackMetadata where
  title : String
  artist : String
  album : String
  genre : String
  date : String
  mood : String
  deriving Repr, DecidableEq

/-- One entry of a MusicBrainz `artist-credit` array: its `name` and the
nested `artist.id` when present (`recording['artist-credit'][0].get('artist', {}).get('id')`). -/
structure MBRecordingCredit where
  name : String
  artistId : Option String
  deriving Repr, DecidableEq

/-- One recording object of a MusicBrainz search payload.  `artistCredit`
is `none` when the `artist-credit` key is absent (the code then falls back
to the default `[{}]`), and `some l` when present with list `l`. -/
structure MBRecording where
  title : String
  artistCredit : Option (List MBRecordingCredit)
  date : String
  deriving Repr, DecidableEq

/-- Parsed JSON body of a MusicBrainz `/recording/` search:
the `recordings` array (absent key behaves as the empty list). -/
structure MBPayload where
  recordings : List MBRecording
  deriving Repr, DecidableEq

/-- The parts of a Last.fm `track.getInfo` track object that
`search_lastfm` reads: `wiki.genre`, `wiki.published`, and the names of the
`toptags.tag` entries (absent keys behave as `""` / the empty list). -/
structure LfmTrack where
  wikiGenre : String
  wikiPublished : String
  toptags : List String
  deriving Repr, DecidableEq

/-- Parsed JSON body of a Last.fm `track.getInfo` call: `some t` when the
`'track'` key is present, `none` otherwise. -/
structure LfmPayload where
  track : Option LfmTrack
  deriving Repr, DecidableEq

/-- Parsed JSON body of a Discogs `/database/search` call: the `results`
array, of which `search_discogs` only uses emptiness and the first `id`
(the ids themselves are opaque here). -/
structure DiscogsSearchPayload where
  results : List Nat
  deriving Repr, DecidableEq

/-- The parts of a Discogs release record that `search_discogs` reads:
`year`, `genres`, `styles`.  The numeric `year` is modelled by the string
`str(year)` that line 394 of the source renders it to, with a Python-falsy
year represented by `""`. -/
structure DiscogsRelease where
  year : String
  genres : List String
  styles : List String
  deriving Repr, DecidableEq

/-- Outcome of one HTTP request as the client code observes it:
a 2xx response whose body parses to the expected shape, a transport-level
exception from `session.get`, a non-2xx status (raised by
`raise_for_status`), or a body on which `.json()` / the shape accesses
raise. -/
inductive NetResponse (α : Type) where
  | success (data : α)
  | transportError
  | httpError (code : Nat)
  | malformedPayload
  deriving Repr, DecidableEq

/-- Normalized result of `search_musicbrainz`: the dict
`{'title', 'artist', 'date', 'genre'}` built at lines 147-158. -/
structure MBResult where
  title : String
  artist : String
  date : String
  genre : List String
  deriving Repr, DecidableEq

/-- Normalized result of `search_lastfm`: the dict
`{'genre', 'mood', 'year'}` built at lines 211-215. -/
structure LfmResult where
  genre : String
  mood : List String
  year : String
  deriving Repr, DecidableEq

/-- Normalized result of `search_discogs`: the dict
`{'year', 'genre', 'style'}` built at lines 253-257. -/
structure DiscogsResult where
  year : String
  genre : List String
  style : List String
  deriving Repr, DecidableEq

/-- `get_musicbrainz_genres`: on success the genre-name list
`[genre['name'] for genre in data.get('genres', [])]`, on any caught
exception the empty list. -/
def get_musicbrainz_genres (resp : NetResponse (List String)) : List String :=
  match resp with
  | .success gs => gs
  | _ => []

/-- `search_musicbrainz`.  The query string built from the cleaned artist
and title feeds only the network, which is abstracted by `resp`;
`genreResp` is the secondary `/artist/` request issued when the matched
recording carries an artist id.  The returned `Nat` counts the HTTP
requests issued by this call.  Returning `none` is the Python `{}`
(falsy); any caught exception also yields `none`.  The `some []`
artist-credit case is the `IndexError` of `[0]` on a present-but-empty
list, caught by the enclosing `except`. -/
def search_musicbrainz (artist title : String) (resp : NetResponse MBPayload)
    (genreResp : NetResponse (List String)) : Option MBResult × Nat :=
  match resp with
  | .success payload =>
    match payload.recordings with
    | [] => (none, 1)
    | rec :: _ =>
      match rec.artistCredit with
      | none =>
        (some { title := rec.title, artist := "", date := rec.date, genre := [] }, 1)
      | some [] => (none, 1)
      | some (c :: _) =>
        match c.artistId with
        | some _ =>
          (some { title := rec.title, artist := c.name, date := rec.date,
                  genre := get_musicbrainz_genres genreResp }, 2)
        | none =>
          (some { title := rec.title, artist := c.name, date := rec.date, genre := [] }, 1)
  | _ => (none, 1)

/-- `search_lastfm`: a missing or placeholder API key short-circuits to the
empty result with no request; otherwise one request is issued and any
failure or a payload without a `'track'` key yields `none`. -/
def search_lastfm (apiKey : String) (resp : NetResponse LfmPayload) :
    Option LfmResult × Nat :=
  if apiKey = "" ∨ apiKey = "YOUR_LASTFM_API_KEY_HERE" then (none, 0)
  else
    match resp with
    | .success payload =>
      match payload.track with
      | some t =>
        (some { genre := t.wikiGenre, mood := t.toptags.take 5,
                year := t.wikiPublished.take 4 }, 1)
      | none => (none, 1)
    | _ => (none, 1)

/-- `get_discogs_release`: the release record on success, the empty dict
(all fields at their `.get` defaults) on any caught exception. -/
def get_discogs_release (resp : NetResponse DiscogsRelease) : DiscogsRelease :=
  match resp with
  | .success r => r
  | _ => { year := "", genres := [], styles := [] }

/-- `search_discogs`: a missing or placeholder token short-circuits to the
empty result with no request; otherwise the search request is issued, and
on a non-empty `results` array the release-detail request follows.  Note
that the result dict built at lines 253-257 is non-empty (truthy) even
when the detail fetch failed and every field is empty. -/
def search_discogs (token : String) (resp : NetResponse DiscogsSearchPayload)
    (releaseResp : NetResponse DiscogsRelease) : Option DiscogsResult × Nat :=
  if token = "" ∨ token = "YOUR_DISCOGS_TOKEN_HERE" then (none, 0)
  else
    match resp with
    | .success payload =>
      match payload.results with
      | [] => (none, 1)
      | _ :: _ =>
        let rel := get_discogs_release releaseResp
        (some { year := rel.year, genre := rel.genres, style := rel.styles }, 2)
    | _ => (none, 1)

/-- Character-list version of Python's `str.startswith`, used to build the
substring test. -/
def isPrefixChars : List Char → List Char → Bool
  | [], _ => true
  | _ :: _, [] => false
  | a :: as, b :: bs => a == b && isPrefixChars as bs

/-- Helper for `containsSubstr`: does `needle` occur as a contiguous run
inside the character list? -/
def infixAux (needle : List Char) : List Char → Bool
  | [] => needle.isEmpty
  | c :: rest => isPrefixChars needle (c :: rest) || infixAux needle rest

/-- Python's `needle in hay` substring containment on strings. -/
def containsSubstr (hay needle : String) : Bool :=
  infixAux needle.toList hay.toList

/-- Python's `str.lower()`: lowercase the string character by character
(extensionally `String.toLower`, stated over the character list so that it
evaluates by reduction). -/
def strLower (s : String) : String := String.mk (s.data.map Char.toLower)

/-- The fixed ordered mood table of `classify_mood` (Python dicts preserve
insertion order, so the `for mood, keywords in mood_keywords.items()` loop
visits the entries in exactly this order). -/
def mood_keywords : List (String × List String) :=
  [("energetic", ["energetic", "upbeat", "fast", "dance", "electronic", "house",
                  "techno", "trance", "edm"]),
   ("chill", ["chill", "ambient", "relaxed", "downtempo", "lounge", "jazz",
              "smooth", "calm"]),
   ("emotional", ["emotional", "melancholic", "sad", "romantic", "ballad",
                  "deep", "atmospheric"]),
   ("aggressive", ["aggressive", "heavy", "metal", "rock", "hardcore",
                   "intense", "powerful"]),
   ("groovy", ["groovy", "funk", "soul", "disco", "rhythm", "swing", "bass"])]

/-- The loop body test of `classify_mood`:
`any(keyword in text_to_analyze for keyword in keywords)`. -/
def moodEntryMatches (blob : String) (p : String × List String) : Bool :=
  p.2.any (fun kw => containsSubstr blob kw)

/-- The `for mood, keywords in mood_keywords.items()` loop: the first
entry in table order whose keyword list matches the blob. -/
def firstMood (blob : String) : List (String × List String) → Option String
  | [] => none
  | p :: rest => if moodEntryMatches blob p then some p.1 else firstMood blob rest

/-- The genre-only fallback chain of `classify_mood` (lines 296-307). -/
def genreFallback (genreLower : String) : String :=
  if ["house", "techno", "trance", "edm", "dance"].any
      (fun w => containsSubstr genreLower w) then "energetic"
  else if ["ambient", "lounge", "jazz", "chillout"].any
      (fun w => containsSubstr genreLower w) then "chill"
  else if ["metal", "rock", "hardcore"].any
      (fun w => containsSubstr genreLower w) then "aggressive"
  else if ["funk", "soul", "disco"].any
      (fun w => containsSubstr genreLower w) then "groovy"
  else "neutral"

/-- The lowercased blob `' '.join(tags + [genre]).lower()` that
`classify_mood` analyses. -/
def analysisText (tags : List String) (genre : String) : String :=
  strLower (String.intercalate " " (tags ++ [genre]))

/-- `classify_mood`: first the ordered keyword table over the blob, then
the genre-only fallback, then `'neutral'`. -/
def classify_mood (tags : List String) (genre : String) : String :=
  match firstMood (analysisText tags genre) mood_keywords with
  | some m => m
  | none => genreFallback (strLower genre)

/-- The `new_metadata` accumulator dict of `process_file`: a key is
`some v` when present with value `v` (possibly `""`), `none` when absent. -/
structure NewMetadata where
  genre : Option String
  year : Option String
  mood : Option String
  deriving Repr, DecidableEq

/-- The empty accumulator `new_metadata = {}`. -/
def NewMetadata.empty : NewMetadata := ⟨none, none, none⟩

/-- Python truthiness of `d.get(key)` on a string-valued optional key:
true exactly when the key is present with a non-empty value. -/
def truthy? (o : Option String) : Bool := !((o.getD "") == "")

/-- Python truthiness of the accumulator dict itself (`if new_metadata:`):
true when any key is present, regardless of its value. -/
def NewMetadata.nonempty (nm : NewMetadata) : Bool :=
  nm.genre.isSome || nm.year.isSome || nm.mood.isSome

/-- The `missing_fields` list built at lines 346-352, as one flag per
field (`'genre' in missing_fields` is `genre`, etc.). -/
structure MissingFields where
  genre : Bool
  year : Bool
  mood : Bool
  deriving Repr, DecidableEq

/-- Lines 346-352 of `process_file`: a field is missing when its extracted
tag is Python-falsy, i.e. the empty string. -/
def missing_fields (em : TrackMetadata) : MissingFields :=
  { genre := em.genre == "", year := em.date == "", mood := em.mood == "" }

/-- Python truthiness of `if not missing_fields:` on the list. -/
def MissingFields.isEmpty (mf : MissingFields) : Bool :=
  !mf.genre && !mf.year && !mf.mood

/-- The mutable state of the search phase of `process_file`:
the accumulator dict, the `found_genre` local, plus bookkeeping that
records the trace of the run — every value assigned to each accumulator
key, in order, and the number of `classify_mood` invocations. -/
structure SearchState where
  nm : NewMetadata
  found_genre : String
  genreSets : List String
  yearSets : List String
  moodSets : List String
  moodCalls : Nat
  deriving Repr, DecidableEq

/-- The state at lines 367-368: `new_metadata = {}`, `found_genre = ''`. -/
def SearchState.init : SearchState :=
  { nm := NewMetadata.empty, found_genre := "", genreSets := [], yearSets := [],
    moodSets := [], moodCalls := 0 }

/-- Lines 371-377: the MusicBrainz merge block.  `mb_data.get('genre')` is
truthy iff the list is non-empty, and line 374 takes its first element
(`search_musicbrainz` always returns the genre as a list, so the
`isinstance` test always selects the `[0]` branch). -/
def stepMB (mf : MissingFields) (res : Option MBResult) (st : SearchState) :
    SearchState :=
  match res with
  | none => st
  | some mb =>
    let st1 :=
      if mf.genre = true ∧ mb.genre ≠ [] then
        let fg := mb.genre.headD ""
        { st with nm := { st.nm with genre := some fg }, found_genre := fg,
                  genreSets := st.genreSets ++ [fg] }
      else st
    if mf.year = true ∧ mb.date ≠ "" then
      { st1 with nm := { st1.nm with year := some (mb.date.take 4) },
                 yearSets := st1.yearSets ++ [mb.date.take 4] }
    else st1

/-- Lines 380-388: the Last.fm merge block.  Genre and year are filled
only when the accumulator value is still falsy; mood is classified from
the Last.fm tags and the current `found_genre` whenever mood was missing
and the tag list is non-empty. -/
def stepLfm (mf : MissingFields) (res : Option LfmResult) (st : SearchState) :
    SearchState :=
  match res with
  | none => st
  | some l =>
    let st1 :=
      if mf.genre = true ∧ truthy? st.nm.genre = false ∧ l.genre ≠ "" then
        { st with nm := { st.nm with genre := some l.genre }, found_genre := l.genre,
                  genreSets := st.genreSets ++ [l.genre] }
      else st
    let st2 :=
      if mf.year = true ∧ truthy? st1.nm.year = false ∧ l.year ≠ "" then
        { st1 with nm := { st1.nm with year := some l.year },
                   yearSets := st1.yearSets ++ [l.year] }
      else st1
    if mf.mood = true ∧ l.mood ≠ [] then
      { st2 with nm := { st2.nm with mood := some (classify_mood l.mood st2.found_genre) },
                 moodSets := st2.moodSets ++ [classify_mood l.mood st2.found_genre],
                 moodCalls := st2.moodCalls + 1 }
    else st2

/-- Lines 391-397: the Discogs merge block (year first, then genre, each
only when still falsy; line 396 takes the first element of the genre
list). -/
def stepDiscogs (mf : MissingFields) (res : Option DiscogsResult)
    (st : SearchState) : SearchState :=
  match res with
  | none => st
  | some d =>
    let st1 :=
      if mf.year = true ∧ truthy? st.nm.year = false ∧ d.year ≠ "" then
        { st with nm := { st.nm with year := some d.year },
                  yearSets := st.yearSets ++ [d.year] }
      else st
    if mf.genre = true ∧ truthy? st1.nm.genre = false ∧ d.genre ≠ [] then
      let fg := d.genre.headD ""
      { st1 with nm := { st1.nm with genre := some fg }, found_genre := fg,
                 genreSets := st1.genreSets ++ [fg] }
    else st1

/-- Lines 400-401: the genre-only mood fallback, taken when mood was
missing, still unfilled, and a `found_genre` was recorded. -/
def moodFallback (mf : MissingFields) (st : SearchState) : SearchState :=
  if mf.mood = true ∧ truthy? st.nm.mood = false ∧ st.found_genre ≠ "" then
    { st with nm := { st.nm with mood := some (classify_mood [] st.found_genre) },
              moodSets := st.moodSets ++ [classify_mood [] st.found_genre],
              moodCalls := st.moodCalls + 1 }
  else st

/-- State of the mutagen side of `update_metadata`: whether `File(path)`
yields an object with tags, and whether `audio.save()` succeeds. -/
structure WriterEnv where
  readable : Bool
  saveOk : Bool
  deriving Repr, DecidableEq

/-- Lines 320-327 of `update_metadata`: each of the three tags is written
only when the corresponding accumulator value is truthy (present and
non-empty); the accumulator's `year` is written to the file's `date`
tag. -/
def apply_tag_updates (tags : TrackMetadata) (nm : NewMetadata) : TrackMetadata :=
  let t1 := if truthy? nm.genre then { tags with genre := nm.genre.getD "" } else tags
  let t2 := if truthy? nm.year then { t1 with date := nm.year.getD "" } else t1
  if truthy? nm.mood then { t2 with mood := nm.mood.getD "" } else t2

/-- `update_metadata`: `some` of the persisted tag record on success
(True), `none` on failure (False) — an unreadable/tagless file or a
failed save. -/
def update_metadata (w : WriterEnv) (tags : TrackMetadata) (nm : NewMetadata) :
    Option TrackMetadata :=
  if w.readable = true then
    if w.saveOk = true then some (apply_tag_updates tags nm) else none
  else none

/-- The `'status'` value of the per-file result dict. -/
inductive Status where
  | complete
  | missing_info
  | updated
  | not_found
  | error
  deriving Repr, DecidableEq, BEq

/-- The result dict of `process_file`, enriched with the run's trace:
`metadata` is the `'metadata'` key (present only for `updated`),
`netCalls` counts the HTTP requests issued, `search` is the final search
state (at `SearchState.init` when the search phase was never entered,
flagged by `searched`), and `writerCalled` records whether
`update_metadata` was invoked. -/
structure ProcessResult where
  status : Status
  metadata : Option NewMetadata
  netCalls : Nat
  search : SearchState
  searched : Bool
  writerCalled : Bool
  deriving Repr, DecidableEq

/-- The API-credential fields of the enricher that the source clients
read. -/
structure Config where
  lastfm_api_key : String
  discogs_token : String
  deriving Repr, DecidableEq

/-- Oracle for everything external that one `process_file` call touches:
the five possible HTTP requests and the writer. -/
structure FileEnv where
  mbResp : NetResponse MBPayload
  mbGenresResp : NetResponse (List String)
  lfmResp : NetResponse LfmPayload
  discogsResp : NetResponse DiscogsSearchPayload
  discogsReleaseResp : NetResponse DiscogsRelease
  writer : WriterEnv
  deriving Repr, DecidableEq

/-- Lines 366-401 of `process_file`: the three merge blocks in the fixed
source order MusicBrainz → Last.fm → Discogs, then the mood fallback,
starting from the empty accumulator. -/
def run_search (mf : MissingFields) (mbRes : Option MBResult)
    (lfmRes : Option LfmResult) (dgRes : Option DiscogsResult) : SearchState :=
  moodFallback mf (stepDiscogs mf dgRes (stepLfm mf lfmRes (stepMB mf mbRes SearchState.init)))

/-- `process_file` on the extracted metadata `em`: the missing-field check
(lines 346-356), the artist/title gate (lines 359-364), the three source
queries and merge blocks in fixed order, the mood fallback, and the
update/outcome logic of lines 403-411. -/
def process_file (cfg : Config) (env : FileEnv) (em : TrackMetadata) :
    ProcessResult :=
  let mf := missing_fields em
  if mf.isEmpty = true then
    { status := .complete, metadata := none, netCalls := 0,
      search := SearchState.init, searched := false, writerCalled := false }
  else if em.artist = "" ∨ em.title = "" then
    { status := .missing_info, metadata := none, netCalls := 0,
      search := SearchState.init, searched := false, writerCalled := false }
  else
    let mb := search_musicbrainz em.artist em.title env.mbResp env.mbGenresResp
    let lfm := search_lastfm cfg.lastfm_api_key env.lfmResp
    let dg := search_discogs cfg.discogs_token env.discogsResp env.discogsReleaseResp
    let st4 := run_search mf mb.1 lfm.1 dg.1
    let calls := mb.2 + lfm.2 + dg.2
    if st4.nm.nonempty = true then
      if (update_metadata env.writer em st4.nm).isSome then
        { status := .updated, metadata := some st4.nm, netCalls := calls,
          search := st4, searched := true, writerCalled := true }
      else
        { status := .not_found, metadata := none, netCalls := calls,
          search := st4, searched := true, writerCalled := true }
    else
      { status := .not_found, metadata := none, netCalls := calls,
        search := st4, searched := true, writerCalled := false }

/-- One unit of batch work: a file's extracted tags plus its external
oracle. -/
structure FileJob where
  em : TrackMetadata
  env : FileEnv
  deriving Repr, DecidableEq

/-- The per-status counters printed by `print_summary`. -/
structure RunSummary where
  total : Nat
  updated : Nat
  complete : Nat
  errors : Nat
  not_found : Nat
  missing_info : Nat
  deriving Repr, DecidableEq

/-- `print_summary`: tally the collected results by status. -/
def print_summary (results : List ProcessResult) : RunSummary :=
  { total := results.length,
    updated := (results.filter (fun r => r.status == Status.updated)).length,
    complete := (results.filter (fun r => r.status == Status.complete)).length,
    errors := (results.filter (fun r => r.status == Status.error)).length,
    not_found := (results.filter (fun r => r.status == Status.not_found)).length,
    missing_info := (results.filter (fun r => r.status == Status.missing_info)).length }

/-- `process_directory`: a missing directory or an empty matching-file
list returns early (lines 415-425) before `print_summary` is ever called,
which `none` records; otherwise every file is processed and the tallied
summary is printed.  The worker pool only affects completion order, which
the tally ignores, so the files are processed in list order here. -/
def process_directory (cfg : Config) (dirExists : Bool) (files : List FileJob) :
    Option RunSummary :=
  if dirExists = false then none
  else if files.isEmpty = true then none
  else some (print_summary (files.map (fun j => process_file cfg j.env j.em)))

/-- The genre value the MusicBrainz merge block would assign when the
field is still open: `some` of the first list element exactly when
`mb_data` and `mb_data.get('genre')` are both truthy (lines 372-374). -/
def suppliedGenreMB (r : Option MBResult) : Option String :=
  match r with
  | some mb => if mb.genre = [] then none else some (mb.genre.headD "")
  | none => none

/-- The genre value the Last.fm merge block would assign when the field is
still open: `some` of the genre string exactly when `lfm_data` and
`lfm_data.get('genre')` are both truthy (lines 381-383). -/
def suppliedGenreLfm (r : Option LfmResult) : Option String :=
  match r with
  | some l => if l.genre = "" then none else some l.genre
  | none => none

/-- The genre value the Discogs merge block would assign when the field is
still open (lines 392-396). -/
def suppliedGenreDg (r : Option DiscogsResult) : Option String :=
  match r with
  | some d => if d.genre = [] then none else some (d.genre.headD "")
  | none => none

/-- The year value the MusicBrainz merge block would assign when the field
is still open: the first four characters of a truthy `date`
(lines 376-377). -/
def suppliedYearMB (r : Option MBResult) : Option String :=
  match r with
  | some mb => if mb.date = "" then none else some (mb.date.take 4)
  | none => none

/-- The year value the Last.fm merge block would assign when the field is
still open (lines 385-386). -/
def suppliedYearLfm (r : Option LfmResult) : Option String :=
  match r with
  | some l => if l.year = "" then none else some l.year
  | none => none

/-- The year value the Discogs merge block would assign when the field is
still open (lines 393-394). -/
def suppliedYearDg (r : Option DiscogsResult) : Option String :=
  match r with
  | some d => if d.year = "" then none else some d.year
  | none => none

/-- Written from the spec's words, for comparison with the code: the
first-found-wins merge picks, from the per-source candidate values in
priority order, the first one that is present and non-empty. -/
def spec_first_found (vals : List (Option String)) : Option String :=
  vals.findSome? (fun o =>
    match o with
    | some s => if s = "" then none else some s
    | none => none)

/-- Number of non-empty values in an assignment trace. -/
def countFilled (l : List String) : Nat := (l.filter (fun s => s ≠ "")).length

/-! Helper lemmas. -/

theorem truthy?_none : truthy? none = false := rfl

theorem truthy?_some (s : String) : truthy? (some s) = !(s == "") := rfl

theorem truthy?_eq_false_iff (o : Option String) :
    truthy? o = false ↔ o = none ∨ o = some "" := by
  cases o with
  | none => simp [truthy?]
  | some s => simp [truthy?]

theorem countFilled_nil : countFilled [] = 0 := rfl

theorem countFilled_append (l₁ l₂ : List String) :
    countFilled (l₁ ++ l₂) = countFilled l₁ + countFilled l₂ := by
  simp [countFilled]

theorem stepMB_genre (mf : MissingFields) (r : Option MBResult) (st : SearchState) :
    (stepMB mf r st).nm.genre =
      if mf.genre = true ∧ (suppliedGenreMB r).isSome = true
      then suppliedGenreMB r else st.nm.genre := by
  cases r with
  | none => simp [stepMB, suppliedGenreMB]
  | some mb =>
    cases hg : mb.genre <;>
      simp only [stepMB, suppliedGenreMB, hg] <;> split <;> split <;> simp_all

theorem stepMB_found (mf : MissingFields) (r : Option MBResult) (st : SearchState) :
    (stepMB mf r st).found_genre =
      if mf.genre = true ∧ (suppliedGenreMB r).isSome = true
      then (suppliedGenreMB r).getD "" else st.found_genre := by
  cases r with
  | none => simp [stepMB, suppliedGenreMB]
  | some mb =>
    cases hg : mb.genre <;>
      simp only [stepMB, suppliedGenreMB, hg] <;> split <;> split <;> simp_all

theorem stepMB_genreSets (mf : MissingFields) (r : Option MBResult) (st : SearchState) :
    (stepMB mf r st).genreSets =
      if mf.genre = true ∧ (suppliedGenreMB r).isSome = true
      then st.genreSets ++ [(suppliedGenreMB r).getD ""] else st.genreSets := by
  cases r with
  | none => simp [stepMB, suppliedGenreMB]
  | some mb =>
    cases hg : mb.genre <;>
      simp only [stepMB, suppliedGenreMB, hg] <;> split <;> split <;> simp_all

theorem stepMB_year (mf : MissingFields) (r : Option MBResult) (st : SearchState) :
    (stepMB mf r st).nm.year =
      if mf.year = true ∧ (suppliedYearMB r).isSome = true
      then suppliedYearMB r else st.nm.year := by
  cases r with
  | none => simp [stepMB, suppliedYearMB]
  | some mb =>
    simp only [stepMB, suppliedYearMB]
    split_ifs <;> simp_all

theorem stepMB_yearSets (mf : MissingFields) (r : Option MBResult) (st : SearchState) :
    (stepMB mf r st).yearSets =
      if mf.year = true ∧ (suppliedYearMB r).isSome = true
      then st.yearSets ++ [(suppliedYearMB r).getD ""] else st.yearSets := by
  cases r with
  | none => simp [stepMB, suppliedYearMB]
  | some mb =>
    simp only [stepMB, suppliedYearMB]
    split_ifs <;> simp_all

theorem stepMB_mood (mf : MissingFields) (r : Option MBResult) (st : SearchState) :
    (stepMB mf r st).nm.mood = st.nm.mood ∧
    (stepMB mf r st).moodSets = st.moodSets ∧
    (stepMB mf r st).moodCalls = st.moodCalls := by
  cases r with
  | none => simp [stepMB]
  | some mb =>
    simp only [stepMB]
    split_ifs <;> simp_all

/-- The tag list `lfm_data.get('mood')` reads, with the absent dict
behaving as the empty list. -/
def lfmMoodTags (r : Option LfmResult) : List String :=
  match r with
  | some l => l.mood
  | none => []

theorem stepLfm_genre (mf : MissingFields) (r : Option LfmResult) (st : SearchState) :
    (stepLfm mf r st).nm.genre =
      if mf.genre = true ∧ truthy? st.nm.genre = false ∧ (suppliedGenreLfm r).isSome = true
      then suppliedGenreLfm r else st.nm.genre := by
  cases r with
  | none => simp [stepLfm, suppliedGenreLfm]
  | some l =>
    simp only [stepLfm, suppliedGenreLfm]
    split_ifs <;> simp_all

theorem stepLfm_found (mf : MissingFields) (r : Option LfmResult) (st : SearchState) :
    (stepLfm mf r st).found_genre =
      if mf.genre = true ∧ truthy? st.nm.genre = false ∧ (suppliedGenreLfm r).isSome = true
      then (suppliedGenreLfm r).getD "" else st.found_genre := by
  cases r with
  | none => simp [stepLfm, suppliedGenreLfm]
  | some l =>
    simp only [stepLfm, suppliedGenreLfm]
    split_ifs <;> simp_all

theorem stepLfm_genreSets (mf : MissingFields) (r : Option LfmResult) (st : SearchState) :
    (stepLfm mf r st).genreSets =
      if mf.genre = true ∧ truthy? st.nm.genre = false ∧ (suppliedGenreLfm r).isSome = true
      then st.genreSets ++ [(suppliedGenreLfm r).getD ""] else st.genreSets := by
  cases r with
  | none => simp [stepLfm, suppliedGenreLfm]
  | some l =>
    simp only [stepLfm, suppliedGenreLfm]
    split_ifs <;> simp_all

theorem stepLfm_year (mf : MissingFields) (r : Option LfmResult) (st : SearchState) :
    (stepLfm mf r st).nm.year =
      if mf.year = true ∧ truthy? st.nm.year = false ∧ (suppliedYearLfm r).isSome = true
      then suppliedYearLfm r else st.nm.year := by
  cases r with
  | none => simp [stepLfm, suppliedYearLfm]
  | some l =>
    simp only [stepLfm, suppliedYearLfm]
    split_ifs <;> simp_all

theorem stepLfm_yearSets (mf : MissingFields) (r : Option LfmResult) (st : SearchState) :
    (stepLfm mf r st).yearSets =
      if mf.year = true ∧ truthy? st.nm.year = false ∧ (suppliedYearLfm r).isSome = true
      then st.yearSets ++ [(suppliedYearLfm r).getD ""] else st.yearSets := by
  cases r with
  | none => simp [stepLfm, suppliedYearLfm]
  | some l =>
    simp only [stepLfm, suppliedYearLfm]
    split_ifs <;> simp_all

theorem stepLfm_mood (mf : MissingFields) (r : Option LfmResult) (st : SearchState) :
    (stepLfm mf r st).nm.mood =
      (if mf.mood = true ∧ lfmMoodTags r ≠ []
       then some (classify_mood (lfmMoodTags r) (stepLfm mf r st).found_genre)
       else st.nm.mood) ∧
    (stepLfm mf r st).moodSets =
      (if mf.mood = true ∧ lfmMoodTags r ≠ []
       then st.moodSets ++ [classify_mood (lfmMoodTags r) (stepLfm mf r st).found_genre]
       else st.moodSets) ∧
    (stepLfm mf r st).moodCalls =
      st.moodCalls + (if mf.mood = true ∧ lfmMoodTags r ≠ [] then 1 else 0) := by
  cases r with
  | none => simp [stepLfm, lfmMoodTags]
  | some l =>
    simp only [stepLfm, lfmMoodTags]
    split_ifs <;> simp_all

theorem stepDiscogs_genre (mf : MissingFields) (r : Option DiscogsResult) (st : SearchState) :
    (stepDiscogs mf r st).nm.genre =
      if mf.genre = true ∧ truthy? st.nm.genre = false ∧ (suppliedGenreDg r).isSome = true
      then suppliedGenreDg r else st.nm.genre := by
  cases r with
  | none => simp [stepDiscogs, suppliedGenreDg]
  | some d =>
    simp only [stepDiscogs, suppliedGenreDg]
    split_ifs <;> simp_all

theorem stepDiscogs_found (mf : MissingFields) (r : Option DiscogsResult) (st : SearchState) :
    (stepDiscogs mf r st).found_genre =
      if mf.genre = true ∧ truthy? st.nm.genre = false ∧ (suppliedGenreDg r).isSome = true
      then (suppliedGenreDg r).getD "" else st.found_genre := by
  cases r with
  | none => simp [stepDiscogs, suppliedGenreDg]
  | some d =>
    simp only [stepDiscogs, suppliedGenreDg]
    split_ifs <;> simp_all

theorem stepDiscogs_genreSets (mf : MissingFields) (r : Option DiscogsResult) (st : SearchState) :
    (stepDiscogs mf r st).genreSets =
      if mf.genre = true ∧ truthy? st.nm.genre = false ∧ (suppliedGenreDg r).isSome = true
      then st.genreSets ++ [(suppliedGenreDg r).getD ""] else st.genreSets := by
  cases r with
  | none => simp [stepDiscogs, suppliedGenreDg]
  | some d =>
    simp only [stepDiscogs, suppliedGenreDg]
    split_ifs <;> simp_all

theorem stepDiscogs_year (mf : MissingFields) (r : Option DiscogsResult) (st : SearchState) :
    (stepDiscogs mf r st).nm.year =
      if mf.year = true ∧ truthy? st.nm.year = false ∧ (suppliedYearDg r).isSome = true
      then suppliedYearDg r else st.nm.year := by
  cases r with
  | none => simp [stepDiscogs, suppliedYearDg]
  | some d =>
    simp only [stepDiscogs, suppliedYearDg]
    split_ifs <;> simp_all

theorem stepDiscogs_yearSets (mf : MissingFields) (r : Option DiscogsResult) (st : SearchState) :
    (stepDiscogs mf r st).yearSets =
      if mf.year = true ∧ truthy? st.nm.year = false ∧ (suppliedYearDg r).isSome = true
      then st.yearSets ++ [(suppliedYearDg r).getD ""] else st.yearSets := by
  cases r with
  | none => simp [stepDiscogs, suppliedYearDg]
  | some d =>
    simp only [stepDiscogs, suppliedYearDg]
    split_ifs <;> simp_all

theorem stepDiscogs_mood (mf : MissingFields) (r : Option DiscogsResult) (st : SearchState) :
    (stepDiscogs mf r st).nm.mood = st.nm.mood ∧
    (stepDiscogs mf r st).moodSets = st.moodSets ∧
    (stepDiscogs mf r st).moodCalls = st.moodCalls := by
  cases r with
  | none => simp [stepDiscogs]
  | some d =>
    simp only [stepDiscogs]
    split_ifs <;> simp_all

theorem moodFallback_frame (mf : MissingFields) (st : SearchState) :
    (moodFallback mf st).nm.genre = st.nm.genre ∧
    (moodFallback mf st).nm.year = st.nm.year ∧
    (moodFallback mf st).found_genre = st.found_genre ∧
    (moodFallback mf st).genreSets = st.genreSets ∧
    (moodFallback mf st).yearSets = st.yearSets := by
  simp only [moodFallback]
  split_ifs <;> simp_all

theorem moodFallback_mood (mf : MissingFields) (st : SearchState) :
    (moodFallback mf st).nm.mood =
      (if mf.mood = true ∧ truthy? st.nm.mood = false ∧ st.found_genre ≠ ""
       then some (classify_mood [] st.found_genre) else st.nm.mood) ∧
    (moodFallback mf st).moodSets =
      (if mf.mood = true ∧ truthy? st.nm.mood = false ∧ st.found_genre ≠ ""
       then st.moodSets ++ [classify_mood [] st.found_genre] else st.moodSets) ∧
    (moodFallback mf st).moodCalls =
      st.moodCalls +
        (if mf.mood = true ∧ truthy? st.nm.mood = false ∧ st.found_genre ≠ ""
         then 1 else 0) := by
  simp only [moodFallback]
  split_ifs <;> simp_all

theorem firstMood_mem (blob : String) (l : List (String × List String)) (m : String)
    (h : firstMood blob l = some m) : m ∈ l.map Prod.fst := by
  induction l with
  | nil => simp [firstMood] at h
  | cons p rest ih =>
    rw [firstMood] at h
    by_cases hp : moodEntryMatches blob p = true
    · rw [if_pos hp] at h
      simp at h
      simp [h]
    · rw [if_neg hp] at h
      simp [ih h]

theorem classify_mood_mem (tags : List String) (genre : String) :
    classify_mood tags genre ∈
      ["energetic", "chill", "emotional", "aggressive", "groovy", "neutral"] := by
  rw [classify_mood]
  cases h : firstMood (analysisText tags genre) mood_keywords with
  | none =>
    rw [genreFallback]
    split_ifs <;> simp
  | some m =>
    have hm := firstMood_mem _ _ _ h
    simp only [mood_keywords, List.map] at hm
    simp at hm ⊢
    tauto

theorem classify_mood_ne_empty (tags : List String) (genre : String) :
    classify_mood tags genre ≠ "" := by
  intro h
  have := classify_mood_mem tags genre
  rw [h] at this
  simp at this

theorem firstMood_eq_get (blob : String) (l : List (String × List String))
    (i : Nat) (h : i < l.length)
    (hm : moodEntryMatches blob (l.get ⟨i, h⟩) = true)
    (hp : ∀ j (hj : j < i), moodEntryMatches blob (l.get ⟨j, Nat.lt_trans hj h⟩) = false) :
    firstMood blob l = some (l.get ⟨i, h⟩).1 := by
  induction l generalizing i with
  | nil => exact absurd h (Nat.not_lt_zero i)
  | cons p rest ih =>
    cases i with
    | zero =>
      simp only [List.get] at hm ⊢
      rw [firstMood, if_pos hm]
    | succ n =>
      have h0 : moodEntryMatches blob p = false := hp 0 (Nat.succ_pos n)
      simp only [List.get] at hm ⊢
      rw [firstMood, if_neg (by simp [h0])]
      exact ih n (Nat.lt_of_succ_lt_succ h) hm
        (fun j hj => hp (j + 1) (Nat.succ_lt_succ hj))

theorem take_four_ne (s : String) (h : s ≠ "") : s.take 4 ≠ "" := by
  intro hc
  apply h
  have hd := congrArg String.data hc
  rw [String.data_take] at hd
  simp at hd
  exact String.ext hd

theorem suppliedGenreLfm_ne (r : Option LfmResult) (s : String)
    (h : suppliedGenreLfm r = some s) : s ≠ "" := by
  cases r with
  | none => simp [suppliedGenreLfm] at h
  | some l =>
    simp only [suppliedGenreLfm] at h
    split_ifs at h <;> simp_all

theorem suppliedYearMB_ne (r : Option MBResult) (s : String)
    (h : suppliedYearMB r = some s) : s ≠ "" := by
  cases r with
  | none => simp [suppliedYearMB] at h
  | some mb =>
    simp only [suppliedYearMB] at h
    split_ifs at h with hd
    rw [Option.some.injEq] at h
    exact h ▸ take_four_ne mb.date hd

theorem suppliedYearLfm_ne (r : Option LfmResult) (s : String)
    (h : suppliedYearLfm r = some s) : s ≠ "" := by
  cases r with
  | none => simp [suppliedYearLfm] at h
  | some l =>
    simp only [suppliedYearLfm] at h
    split_ifs at h <;> simp_all

theorem suppliedYearDg_ne (r : Option DiscogsResult) (s : String)
    (h : suppliedYearDg r = some s) : s ≠ "" := by
  cases r with
  | none => simp [suppliedYearDg] at h
  | some d =>
    simp only [suppliedYearDg] at h
    split_ifs at h <;> simp_all

theorem run_search_genre_merge (mf : MissingFields) (a : Option MBResult)
    (b : Option LfmResult) (c : Option DiscogsResult) (v : String)
    (hg : mf.genre = true)
    (hv : spec_first_found
      [suppliedGenreMB a, suppliedGenreLfm b, suppliedGenreDg c] = some v) :
    (run_search mf a b c).nm.genre = some v := by
  have h4 := (moodFallback_frame mf
    (stepDiscogs mf c (stepLfm mf b (stepMB mf a SearchState.init)))).1
  rw [run_search, h4, stepDiscogs_genre, stepLfm_genre, stepMB_genre]
  simp only [SearchState.init, NewMetadata.empty]
  rcases hmb : suppliedGenreMB a with _ | g1
  · rcases hlf : suppliedGenreLfm b with _ | g2
    · rcases hdg : suppliedGenreDg c with _ | g3
      · simp [spec_first_found, hmb, hlf, hdg] at hv
      · by_cases hg3 : g3 = ""
        · simp [spec_first_found, hmb, hlf, hdg, hg3] at hv
        · simp [spec_first_found, hmb, hlf, hdg, hg3] at hv
          simp [hmb, hlf, hdg, hg, truthy?, hv]
    · have hg2 := suppliedGenreLfm_ne b g2 hlf
      simp [spec_first_found, hmb, hlf, hg2] at hv
      subst hv
      simp [hmb, hlf, hg, truthy?, hg2]
  · by_cases hg1 : g1 = ""
    · rcases hlf : suppliedGenreLfm b with _ | g2
      · rcases hdg : suppliedGenreDg c with _ | g3
        · simp [spec_first_found, hmb, hlf, hdg, hg1] at hv
        · by_cases hg3 : g3 = ""
          · simp [spec_first_found, hmb, hlf, hdg, hg1, hg3] at hv
          · simp [spec_first_found, hmb, hlf, hdg, hg1, hg3] at hv
            simp [hmb, hlf, hdg, hg, truthy?, hg1, hg3, hv]
      · have hg2 := suppliedGenreLfm_ne b g2 hlf
        simp [spec_first_found, hmb, hlf, hg1, hg2] at hv
        subst hv
        simp [hmb, hlf, hg, truthy?, hg1, hg2]
    · simp [spec_first_found, hmb, hg1] at hv
      subst hv
      simp [hmb, hg, truthy?, hg1]

theorem run_search_year_merge (mf : MissingFields) (a : Option MBResult)
    (b : Option LfmResult) (c : Option DiscogsResult) (v : String)
    (hy : mf.year = true)
    (hv : spec_first_found
      [suppliedYearMB a, suppliedYearLfm b, suppliedYearDg c] = some v) :
    (run_search mf a b c).nm.year = some v := by
  have h4 := (moodFallback_frame mf
    (stepDiscogs mf c (stepLfm mf b (stepMB mf a SearchState.init)))).2.1
  rw [run_search, h4, stepDiscogs_year, stepLfm_year, stepMB_year]
  simp only [SearchState.init, NewMetadata.empty]
  rcases hmb : suppliedYearMB a with _ | y1
  · rcases hlf : suppliedYearLfm b with _ | y2
    · rcases hdg : suppliedYearDg c with _ | y3
      · simp [spec_first_found, hmb, hlf, hdg] at hv
      · have h3 := suppliedYearDg_ne c y3 hdg
        simp [spec_first_found, hmb, hlf, hdg, h3] at hv
        subst hv
        simp [hmb, hlf, hdg, hy, truthy?, h3]
    · have h2 := suppliedYearLfm_ne b y2 hlf
      simp [spec_first_found, hmb, hlf, h2] at hv
      subst hv
      simp [hmb, hlf, hy, truthy?, h2]
  · have h1 := suppliedYearMB_ne a y1 hmb
    simp [spec_first_found, hmb, h1] at hv
    subst hv
    simp [hmb, hy, truthy?, h1]

theorem run_search_genre_not_missing (mf : MissingFields) (a : Option MBResult)
    (b : Option LfmResult) (c : Option DiscogsResult) (hg : mf.genre = false) :
    (run_search mf a b c).nm.genre = none ∧
    (run_search mf a b c).genreSets = [] ∧
    (run_search mf a b c).found_genre = "" := by
  refine ⟨?_, ?_, ?_⟩
  · rw [run_search, (moodFallback_frame mf _).1, stepDiscogs_genre, stepLfm_genre,
      stepMB_genre]
    simp [hg, SearchState.init, NewMetadata.empty]
  · rw [run_search, (moodFallback_frame mf _).2.2.2.1, stepDiscogs_genreSets,
      stepLfm_genreSets, stepMB_genreSets]
    simp [hg, SearchState.init]
  · rw [run_search, (moodFallback_frame mf _).2.2.1, stepDiscogs_found,
      stepLfm_found, stepMB_found]
    simp [hg, SearchState.init]

theorem run_search_year_not_missing (mf : MissingFields) (a : Option MBResult)
    (b : Option LfmResult) (c : Option DiscogsResult) (hy : mf.year = false) :
    (run_search mf a b c).nm.year = none ∧
    (run_search mf a b c).yearSets = [] := by
  refine ⟨?_, ?_⟩
  · rw [run_search, (moodFallback_frame mf _).2.1, stepDiscogs_year, stepLfm_year,
      stepMB_year]
    simp [hy, SearchState.init, NewMetadata.empty]
  · rw [run_search, (moodFallback_frame mf _).2.2.2.2, stepDiscogs_yearSets,
      stepLfm_yearSets, stepMB_yearSets]
    simp [hy, SearchState.init]

theorem run_search_mood_not_missing (mf : MissingFields) (a : Option MBResult)
    (b : Option LfmResult) (c : Option DiscogsResult) (hm : mf.mood = false) :
    (run_search mf a b c).nm.mood = none ∧
    (run_search mf a b c).moodSets = [] ∧
    (run_search mf a b c).moodCalls = 0 := by
  simp [run_search, moodFallback_mood, stepDiscogs_mood, stepLfm_mood, stepMB_mood,
    hm, SearchState.init, NewMetadata.empty]

theorem run_search_genre_count (mf : MissingFields) (a : Option MBResult)
    (b : Option LfmResult) (c : Option DiscogsResult) :
    countFilled (run_search mf a b c).genreSets ≤ 1 := by
  simp only [run_search, moodFallback_frame, stepDiscogs_genreSets,
    stepLfm_genreSets, stepMB_genreSets, stepLfm_genre, stepMB_genre,
    SearchState.init, NewMetadata.empty]
  by_cases hmfg : mf.genre = true
  · rcases hmb : suppliedGenreMB a with _ | g1
    · rcases hlf : suppliedGenreLfm b with _ | g2
      · rcases hdg : suppliedGenreDg c with _ | g3
        · simp [hmb, hlf, hdg, countFilled]
        · by_cases hg3 : g3 = "" <;>
            simp [hmb, hlf, hdg, hmfg, truthy?, hg3, countFilled]
      · have hg2 := suppliedGenreLfm_ne b g2 hlf
        simp [hmb, hlf, hmfg, truthy?, hg2, countFilled]
    · by_cases hg1 : g1 = ""
      · rcases hlf : suppliedGenreLfm b with _ | g2
        · rcases hdg : suppliedGenreDg c with _ | g3
          · simp [hmb, hlf, hdg, hmfg, truthy?, hg1, countFilled]
          · by_cases hg3 : g3 = "" <;>
              simp [hmb, hlf, hdg, hmfg, truthy?, hg1, hg3, countFilled]
        · have hg2 := suppliedGenreLfm_ne b g2 hlf
          simp [hmb, hlf, hmfg, truthy?, hg1, hg2, countFilled]
      · simp [hmb, hmfg, truthy?, hg1, countFilled]
  · simp [hmfg, countFilled]

theorem run_search_year_count (mf : MissingFields) (a : Option MBResult)
    (b : Option LfmResult) (c : Option DiscogsResult) :
    (run_search mf a b c).yearSets.length ≤ 1 := by
  simp only [run_search, moodFallback_frame, stepDiscogs_yearSets,
    stepLfm_yearSets, stepMB_yearSets, stepLfm_year, stepMB_year,
    SearchState.init, NewMetadata.empty]
  by_cases hmfy : mf.year = true
  · rcases hmb : suppliedYearMB a with _ | y1
    · rcases hlf : suppliedYearLfm b with _ | y2
      · rcases hdg : suppliedYearDg c with _ | y3
        · simp [hmb, hlf, hdg]
        · have h3 := suppliedYearDg_ne c y3 hdg
          simp [hmb, hlf, hdg, hmfy, truthy?, h3]
      · have h2 := suppliedYearLfm_ne b y2 hlf
        simp [hmb, hlf, hmfy, truthy?, h2]
    · have h1 := suppliedYearMB_ne a y1 hmb
      simp [hmb, hmfy, truthy?, h1]
  · simp [hmfy]

theorem run_search_mood_count (mf : MissingFields) (a : Option MBResult)
    (b : Option LfmResult) (c : Option DiscogsResult) :
    (run_search mf a b c).moodSets.length ≤ 1 := by
  simp only [run_search, moodFallback_mood, stepDiscogs_mood, stepLfm_mood,
    stepMB_mood, SearchState.init, NewMetadata.empty]
  split_ifs <;> simp_all [truthy?, classify_mood_ne_empty]

theorem run_search_mood_cases (mf : MissingFields) (a : Option MBResult)
    (b : Option LfmResult) (c : Option DiscogsResult) :
    (run_search mf a b c).nm.mood = none ∨
    ∃ tags g, (run_search mf a b c).nm.mood = some (classify_mood tags g) := by
  rw [run_search, (moodFallback_mood mf _).1, (stepDiscogs_mood mf c _).1,
    (stepLfm_mood mf b _).1, (stepMB_mood mf a _).1]
  simp only [SearchState.init, NewMetadata.empty]
  split_ifs
  · exact Or.inr ⟨_, _, rfl⟩
  · exact Or.inr ⟨_, _, rfl⟩
  · exact Or.inr ⟨_, _, rfl⟩
  · exact Or.inl rfl

theorem process_file_search (cfg : Config) (env : FileEnv) (em : TrackMetadata)
    (h1 : (missing_fields em).isEmpty = false)
    (h2 : ¬(em.artist = "" ∨ em.title = "")) :
    (process_file cfg env em).search =
      run_search (missing_fields em)
        (search_musicbrainz em.artist em.title env.mbResp env.mbGenresResp).1
        (search_lastfm cfg.lastfm_api_key env.lfmResp).1
        (search_discogs cfg.discogs_token env.discogsResp env.discogsReleaseResp).1 := by
  simp only [process_file]
  rw [if_neg (by simp [h1]), if_neg h2]
  split_ifs <;> rfl

theorem process_file_noSearch (cfg : Config) (env : FileEnv) (em : TrackMetadata)
    (h : (missing_fields em).isEmpty = true ∨ (em.artist = "" ∨ em.title = "")) :
    (process_file cfg env em).search = SearchState.init := by
  by_cases h1 : (missing_fields em).isEmpty = true
  · simp [process_file, h1]
  · rcases h with h | h
    · exact absurd h h1
    · simp [process_file, h1, h]

theorem apply_tag_updates_genre (t : TrackMetadata) (nm : NewMetadata) :
    (apply_tag_updates t nm).genre =
      if truthy? nm.genre = true then nm.genre.getD "" else t.genre := by
  simp only [apply_tag_updates]
  split_ifs <;> simp_all

theorem apply_tag_updates_date (t : TrackMetadata) (nm : NewMetadata) :
    (apply_tag_updates t nm).date =
      if truthy? nm.year = true then nm.year.getD "" else t.date := by
  simp only [apply_tag_updates]
  split_ifs <;> simp_all

theorem apply_tag_updates_mood (t : TrackMetadata) (nm : NewMetadata) :
    (apply_tag_updates t nm).mood =
      if truthy? nm.mood = true then nm.mood.getD "" else t.mood := by
  simp only [apply_tag_updates]
  split_ifs <;> simp_all

theorem run_search_mb_genre (mf : MissingFields) (a : Option MBResult)
    (b : Option LfmResult) (c : Option DiscogsResult) (g : String)
    (hmf : mf.genre = true) (ha : suppliedGenreMB a = some g) (hg : g ≠ "") :
    (run_search mf a b c).nm.genre = some g ∧
    (run_search mf a b c).found_genre = g := by
  constructor
  · exact run_search_genre_merge mf a b c g hmf (by simp [spec_first_found, ha, hg])
  · rw [run_search, (moodFallback_frame mf _).2.2.1, stepDiscogs_found,
      stepLfm_found, stepMB_found]
    simp only [stepLfm_genre, stepMB_genre, SearchState.init, NewMetadata.empty]
    simp [ha, hmf, truthy?, hg]

theorem run_search_dg_genre (mf : MissingFields) (a : Option MBResult)
    (b : Option LfmResult) (c : Option DiscogsResult) (g : String)
    (hmf : mf.genre = true) (ha : suppliedGenreMB a = none)
    (hb : suppliedGenreLfm b = none) (hc : suppliedGenreDg c = some g) :
    (run_search mf a b c).nm.genre = some g ∧
    (run_search mf a b c).found_genre = g := by
  constructor
  · rw [run_search, (moodFallback_frame mf _).1, stepDiscogs_genre, stepLfm_genre,
      stepMB_genre]
    simp [ha, hb, hc, hmf, truthy?, SearchState.init, NewMetadata.empty]
  · rw [run_search, (moodFallback_frame mf _).2.2.1, stepDiscogs_found,
      stepLfm_found, stepMB_found]
    simp only [stepLfm_genre, stepMB_genre, SearchState.init, NewMetadata.empty]
    simp [ha, hb, hc, hmf, truthy?]

/-! Concrete fixtures used by the witnesses and counterexamples. -/

/-- Credentials with no keys configured. -/
def cfgNone : Config := { lastfm_api_key := "", discogs_token := "" }

/-- Credentials with a Last.fm key and Discogs token configured. -/
def cfgKeys : Config := { lastfm_api_key := "k", discogs_token := "t" }

/-- A writable, saveable file. -/
def writerOk : WriterEnv := { readable := true, saveOk := true }

/-- An environment in which every network request fails at the transport
level. -/
def envQuiet : FileEnv :=
  { mbResp := .transportError, mbGenresResp := .transportError,
    lfmResp := .transportError, discogsResp := .transportError,
    discogsReleaseResp := .transportError, writer := writerOk }

/-- A file with an empty artist tag whose genre, date and mood tags are all
present. -/
def emPresentNoArtist : TrackMetadata :=
  { title := "Song", artist := "", album := "", genre := "Rock",
    date := "1999", mood := "chill" }

/-- A file with every tag empty. -/
def emAllEmpty : TrackMetadata :=
  { title := "", artist := "", album := "", genre := "", date := "", mood := "" }

/-- A MusicBrainz recording hit carrying an artist id, so the secondary
genre request is issued. -/
def recHit : MBRecording :=
  { title := "Get Lucky", artistCredit := some [{ name := "Daft Punk", artistId := some "mbid" }],
    date := "2013-04-19" }

/-- MusicBrainz finds genre `House`; Last.fm independently supplies genre
`Techno`; Discogs is unreachable. -/
def envHouseTechno : FileEnv :=
  { mbResp := .success { recordings := [recHit] },
    mbGenresResp := .success ["House"],
    lfmResp := .success { track := some { wikiGenre := "Techno", wikiPublished := "", toptags := [] } },
    discogsResp := .transportError, discogsReleaseResp := .transportError,
    writer := writerOk }

/-- MusicBrainz returns a genre list whose first element is the empty
string; Last.fm then supplies `Techno` for the same field. -/
def envDoubleSet : FileEnv :=
  { mbResp := .success { recordings := [recHit] },
    mbGenresResp := .success [""],
    lfmResp := .success { track := some { wikiGenre := "Techno", wikiPublished := "", toptags := [] } },
    discogsResp := .transportError, discogsReleaseResp := .transportError,
    writer := writerOk }

/-- A file missing only its genre tag. -/
def emNeedsGenre : TrackMetadata :=
  { title := "Get Lucky", artist := "Daft Punk", album := "", genre := "",
    date := "2013", mood := "chill" }

/-- Last.fm supplies the top tag `dance`; everything else is unreachable. -/
def envMoody : FileEnv :=
  { mbResp := .transportError, mbGenresResp := .transportError,
    lfmResp := .success { track := some { wikiGenre := "", wikiPublished := "", toptags := ["dance"] } },
    discogsResp := .transportError, discogsReleaseResp := .transportError,
    writer := writerOk }

/-- A file missing only its mood tag. -/
def emNeedsMood : TrackMetadata :=
  { title := "Song", artist := "A", album := "", genre := "House",
    date := "2000", mood := "" }

/-- A file missing only its genre tag, with short neutral tags. -/
def emOnlyGenreMissing : TrackMetadata :=
  { title := "Song", artist := "A", album := "", genre := "", date := "2001",
    mood := "calm" }

/-! Claim theorems. -/

/-- C1 counterexample: a file whose artist tag is empty but whose genre,
date and mood tags are all present yields status `complete`, not
`missing_info` — the missing-field check at lines 346-356 runs before the
artist/title gate, so the claim's "no further precondition on the other
tag fields" fails. -/
theorem C1_counterexample :
    emPresentNoArtist.artist = "" ∧
    (process_file cfgNone envQuiet emPresentNoArtist).status = Status.complete ∧
    Status.complete ≠ Status.missing_info := by
  refine ⟨rfl, ?_, by decide⟩
  decide

/-- C1 (amended): for every file with at least one missing field among
genre/date/mood whose extracted artist or title tag is empty, processing
yields status `missing_info` and issues no network call. -/
theorem C1_missing_artist_title (cfg : Config) (env : FileEnv) (em : TrackMetadata)
    (hmiss : (missing_fields em).isEmpty = false)
    (hat : em.artist = "" ∨ em.title = "") :
    (process_file cfg env em).status = Status.missing_info ∧
    (process_file cfg env em).netCalls = 0 := by
  simp only [process_file]
  rw [if_neg (by simp [hmiss]), if_pos hat]
  exact ⟨rfl, rfl⟩

theorem C1_witness :
    (process_file cfgNone envQuiet emAllEmpty).status = Status.missing_info ∧
    (process_file cfgNone envQuiet emAllEmpty).netCalls = 0 :=
  C1_missing_artist_title cfgNone envQuiet emAllEmpty (by decide) (Or.inl rfl)

/-- C2 counterexample: over an existing directory with zero matching
files, `process_directory` returns at line 425 before `print_summary` is
ever invoked, so no `RunSummary` is reported at all — refuting the claim
that an all-zero summary is printed. -/
theorem C2_counterexample :
    process_directory cfgNone true ([] : List FileJob) = none := by
  decide

/-- C2 (amended): a run over an existing directory with zero matching
files completes without raising and without printing a summary (the
runner logs and returns early); a summary is printed exactly when at
least one file matched. -/
theorem C2_empty_batch_no_summary (cfg : Config) (files : List FileJob) :
    (files.isEmpty = true → process_directory cfg true files = none) ∧
    (files.isEmpty = false → (process_directory cfg true files).isSome = true) := by
  constructor <;> intro h <;> simp [process_directory, h]

theorem C2_witness :
    process_directory cfgNone true ([] : List FileJob) = none ∧
    (process_directory cfgNone true [{ em := emPresentNoArtist, env := envQuiet }]).isSome = true :=
  ⟨(C2_empty_batch_no_summary cfgNone []).1 rfl,
   (C2_empty_batch_no_summary cfgNone [{ em := emPresentNoArtist, env := envQuiet }]).2 rfl⟩

/-- C6: for each of the three source clients, a transport error, a non-2xx
response, or a malformed payload on the primary lookup is absorbed inside
the client and yields the empty `SourceResult` (`none`), and the secondary
calls (`get_musicbrainz_genres`, `get_discogs_release`) likewise absorb
every failure into their empty defaults; no failure escapes as an
exception — all four functions are total. -/
theorem C6_failures_absorbed :
    (∀ (artist title : String) (genreResp : NetResponse (List String)) (code : Nat),
      (search_musicbrainz artist title .transportError genreResp).1 = none ∧
      (search_musicbrainz artist title (.httpError code) genreResp).1 = none ∧
      (search_musicbrainz artist title .malformedPayload genreResp).1 = none) ∧
    (∀ (key : String) (code : Nat),
      (search_lastfm key .transportError).1 = none ∧
      (search_lastfm key (.httpError code)).1 = none ∧
      (search_lastfm key .malformedPayload).1 = none) ∧
    (∀ (token : String) (relResp : NetResponse DiscogsRelease) (code : Nat),
      (search_discogs token .transportError relResp).1 = none ∧
      (search_discogs token (.httpError code) relResp).1 = none ∧
      (search_discogs token .malformedPayload relResp).1 = none) ∧
    (∀ code : Nat,
      get_musicbrainz_genres .transportError = [] ∧
      get_musicbrainz_genres (.httpError code) = [] ∧
      get_musicbrainz_genres .malformedPayload = [] ∧
      get_discogs_release .transportError = { year := "", genres := [], styles := [] } ∧
      get_discogs_release (.httpError code) = { year := "", genres := [], styles := [] } ∧
      get_discogs_release .malformedPayload = { year := "", genres := [], styles := [] }) := by
  refine ⟨fun a t g c => ⟨rfl, rfl, rfl⟩, fun k c => ?_, fun tk r c => ?_,
    fun c => ⟨rfl, rfl, rfl, rfl, rfl, rfl⟩⟩
  · by_cases hk : k = "" ∨ k = "YOUR_LASTFM_API_KEY_HERE" <;>
      exact ⟨by simp [search_lastfm, hk], by simp [search_lastfm, hk],
        by simp [search_lastfm, hk]⟩
  · by_cases ht : tk = "" ∨ tk = "YOUR_DISCOGS_TOKEN_HERE" <;>
      exact ⟨by simp [search_discogs, ht], by simp [search_discogs, ht],
        by simp [search_discogs, ht]⟩

/-- C7: `classify_mood` is a pure function; it returns the label of the
first entry in the fixed table order (energetic, chill, emotional,
aggressive, groovy) whose keyword list has a substring match in the
lowercased blob of the tags and genre; in particular
`classify_mood ["metal", "energetic"] "" = "energetic"`, not
`"aggressive"`. -/
theorem C7_mood_priority :
    (∀ (tags : List String) (genre : String) (i : Nat) (h : i < mood_keywords.length),
      moodEntryMatches (analysisText tags genre) (mood_keywords.get ⟨i, h⟩) = true →
      (∀ j (hj : j < i),
        moodEntryMatches (analysisText tags genre)
          (mood_keywords.get ⟨j, Nat.lt_trans hj h⟩) = false) →
      classify_mood tags genre = (mood_keywords.get ⟨i, h⟩).1) ∧
    classify_mood ["metal", "energetic"] "" = "energetic" := by
  constructor
  · intro tags genre i h hm hp
    rw [classify_mood, firstMood_eq_get (analysisText tags genre) mood_keywords i h hm hp]
  · decide

theorem C7_witness : classify_mood ["dance"] "" = "energetic" := by
  have h := C7_mood_priority.1 ["dance"] "" 0 (by decide) (by decide)
    (fun j hj => absurd hj (Nat.not_lt_zero j))
  exact h.trans (by decide)

/-- C8: with an absent or placeholder Last.fm API key, `search_lastfm`
returns the empty result immediately and issues zero network requests, and
likewise `search_discogs` with an absent or placeholder token. -/
theorem C8_placeholder_credentials (resp : NetResponse LfmPayload)
    (dresp : NetResponse DiscogsSearchPayload) (rresp : NetResponse DiscogsRelease) :
    search_lastfm "" resp = (none, 0) ∧
    search_lastfm "YOUR_LASTFM_API_KEY_HERE" resp = (none, 0) ∧
    search_discogs "" dresp rresp = (none, 0) ∧
    search_discogs "YOUR_DISCOGS_TOKEN_HERE" dresp rresp = (none, 0) := by
  refine ⟨?_, ?_, ?_, ?_⟩ <;> simp [search_lastfm, search_discogs]

/-- C3: field merge is first-found-wins.  For a file whose genre (resp.
year) is missing and whose artist and title are present, the final
accumulator value of that field is the first non-empty value supplied by
the sources in the fixed order MusicBrainz → Last.fm → Discogs (the mood
field has a single supplier, Last.fm, so no conflict can arise for it).
The witness instantiates the "MusicBrainz genre House beats Last.fm
Techno" case. -/
theorem C3_first_found_wins (cfg : Config) (env : FileEnv) (em : TrackMetadata)
    (g y : String)
    (hart : ¬(em.artist = "" ∨ em.title = "")) :
    (em.genre = "" →
      spec_first_found
        [suppliedGenreMB (search_musicbrainz em.artist em.title env.mbResp env.mbGenresResp).1,
         suppliedGenreLfm (search_lastfm cfg.lastfm_api_key env.lfmResp).1,
         suppliedGenreDg (search_discogs cfg.discogs_token env.discogsResp env.discogsReleaseResp).1]
        = some g →
      (process_file cfg env em).search.nm.genre = some g) ∧
    (em.date = "" →
      spec_first_found
        [suppliedYearMB (search_musicbrainz em.artist em.title env.mbResp env.mbGenresResp).1,
         suppliedYearLfm (search_lastfm cfg.lastfm_api_key env.lfmResp).1,
         suppliedYearDg (search_discogs cfg.discogs_token env.discogsResp env.discogsReleaseResp).1]
        = some y →
      (process_file cfg env em).search.nm.year = some y) := by
  constructor
  · intro hg hv
    rw [process_file_search cfg env em
      (by simp [missing_fields, MissingFields.isEmpty, hg]) hart]
    exact run_search_genre_merge _ _ _ _ g (by simp [missing_fields, hg]) hv
  · intro hy hv
    rw [process_file_search cfg env em
      (by simp [missing_fields, MissingFields.isEmpty, hy]) hart]
    exact run_search_year_merge _ _ _ _ y (by simp [missing_fields, hy]) hv

theorem C3_witness :
    (process_file cfgKeys envHouseTechno emNeedsGenre).search.nm.genre = some "House" :=
  (C3_first_found_wins cfgKeys envHouseTechno emNeedsGenre "House" "" (by decide)).1
    rfl (by decide)

/-- C4 counterexample: when MusicBrainz returns a genre list whose first
element is the empty string and Last.fm then supplies `Techno`, the
accumulator's genre key is assigned twice (first `""`, then `"Techno"`),
refuting "each accumulator field is set at most once". -/
theorem C4_counterexample :
    (process_file cfgKeys envDoubleSet emOnlyGenreMissing).search.genreSets = ["", "Techno"] ∧
    (process_file cfgKeys envDoubleSet emOnlyGenreMissing).search.genreSets.length = 2 := by
  exact ⟨by decide, by decide⟩

/-- C4 (amended): the missing-field set is derived from the extracted
metadata, so an accumulator field can only be filled when the
corresponding tag was empty; a present tag survives the Writer's tag
update unchanged; each accumulator field receives a *non-empty* value at
most once (an empty first list element may be overwritten, as the
counterexample shows, so only the year and mood keys are assigned at most
once outright); and mood is classified only for files whose mood tag was
missing. -/
theorem C4_accumulator_invariants (cfg : Config) (env : FileEnv) (em : TrackMetadata) :
    ((process_file cfg env em).search.nm.genre.isSome = true → em.genre = "") ∧
    ((process_file cfg env em).search.nm.year.isSome = true → em.date = "") ∧
    ((process_file cfg env em).search.nm.mood.isSome = true → em.mood = "") ∧
    (em.genre ≠ "" →
      (apply_tag_updates em (process_file cfg env em).search.nm).genre = em.genre) ∧
    (em.date ≠ "" →
      (apply_tag_updates em (process_file cfg env em).search.nm).date = em.date) ∧
    (em.mood ≠ "" →
      (apply_tag_updates em (process_file cfg env em).search.nm).mood = em.mood) ∧
    countFilled (process_file cfg env em).search.genreSets ≤ 1 ∧
    (process_file cfg env em).search.yearSets.length ≤ 1 ∧
    (process_file cfg env em).search.moodSets.length ≤ 1 ∧
    (0 < (process_file cfg env em).search.moodCalls → em.mood = "") := by
  by_cases hs : (missing_fields em).isEmpty = true ∨ (em.artist = "" ∨ em.title = "")
  · rw [process_file_noSearch cfg env em hs]
    refine ⟨?_, ?_, ?_, ?_, ?_, ?_, ?_, ?_, ?_, ?_⟩ <;>
      simp [SearchState.init, NewMetadata.empty, apply_tag_updates, truthy?, countFilled]
  · rcases not_or.mp hs with ⟨h1x, h2⟩
    have h1 : (missing_fields em).isEmpty = false := by simpa using h1x
    rw [process_file_search cfg env em h1 h2]
    set aR := (search_musicbrainz em.artist em.title env.mbResp env.mbGenresResp).1
    set bR := (search_lastfm cfg.lastfm_api_key env.lfmResp).1
    set cR := (search_discogs cfg.discogs_token env.discogsResp env.discogsReleaseResp).1
    refine ⟨?_, ?_, ?_, ?_, ?_, ?_, run_search_genre_count _ aR bR cR,
      run_search_year_count _ aR bR cR, run_search_mood_count _ aR bR cR, ?_⟩
    · intro hsome
      by_contra hne
      have h0 := (run_search_genre_not_missing (missing_fields em) aR bR cR
        (by simp [missing_fields, hne])).1
      rw [h0] at hsome
      simp at hsome
    · intro hsome
      by_contra hne
      have h0 := (run_search_year_not_missing (missing_fields em) aR bR cR
        (by simp [missing_fields, hne])).1
      rw [h0] at hsome
      simp at hsome
    · intro hsome
      by_contra hne
      have h0 := (run_search_mood_not_missing (missing_fields em) aR bR cR
        (by simp [missing_fields, hne])).1
      rw [h0] at hsome
      simp at hsome
    · intro hne
      have h0 := (run_search_genre_not_missing (missing_fields em) aR bR cR
        (by simp [missing_fields, hne])).1
      rw [apply_tag_updates_genre, h0]
      simp [truthy?]
    · intro hne
      have h0 := (run_search_year_not_missing (missing_fields em) aR bR cR
        (by simp [missing_fields, hne])).1
      rw [apply_tag_updates_date, h0]
      simp [truthy?]
    · intro hne
      have h0 := (run_search_mood_not_missing (missing_fields em) aR bR cR
        (by simp [missing_fields, hne])).1
      rw [apply_tag_updates_mood, h0]
      simp [truthy?]
    · intro hpos
      by_contra hne
      have h0 := (run_search_mood_not_missing (missing_fields em) aR bR cR
        (by simp [missing_fields, hne])).2.2
      rw [h0] at hpos
      exact absurd hpos (by omega)

theorem C4_witness :
    (apply_tag_updates emOnlyGenreMissing
      (process_file cfgKeys envDoubleSet emOnlyGenreMissing).search.nm).date = "2001" :=
  (C4_accumulator_invariants cfgKeys envDoubleSet emOnlyGenreMissing).2.2.2.2.1 (by decide)

/-- C5: once the search phase has run (some field missing, artist and
title present), a non-empty accumulator — any key present, per Python dict
truthiness — triggers the Writer; a successful write yields status
`updated` carrying the applied fields as `metadata`; a failed write falls
through to the same `not_found` outcome that an empty accumulator
produces. -/
theorem C5_writer_gate (cfg : Config) (env : FileEnv) (em : TrackMetadata)
    (A : SearchState)
    (h1 : (missing_fields em).isEmpty = false)
    (h2 : ¬(em.artist = "" ∨ em.title = ""))
    (hA : A = run_search (missing_fields em)
        (search_musicbrainz em.artist em.title env.mbResp env.mbGenresResp).1
        (search_lastfm cfg.lastfm_api_key env.lfmResp).1
        (search_discogs cfg.discogs_token env.discogsResp env.discogsReleaseResp).1) :
    (A.nm.nonempty = true → (process_file cfg env em).writerCalled = true) ∧
    (A.nm.nonempty = true → (update_metadata env.writer em A.nm).isSome = true →
      (process_file cfg env em).status = Status.updated ∧
      (process_file cfg env em).metadata = some A.nm) ∧
    (A.nm.nonempty = true → (update_metadata env.writer em A.nm).isSome = false →
      (process_file cfg env em).status = Status.not_found ∧
      (process_file cfg env em).metadata = none) ∧
    (A.nm.nonempty = false →
      (process_file cfg env em).status = Status.not_found ∧
      (process_file cfg env em).writerCalled = false) := by
  subst hA
  refine ⟨fun hne => ?_, fun hne hw => ?_, fun hne hw => ?_, fun hne => ?_⟩
  · simp only [process_file]
    rw [if_neg (by simp [h1]), if_neg h2, if_pos hne]
    split_ifs <;> rfl
  · simp only [process_file]
    rw [if_neg (by simp [h1]), if_neg h2, if_pos hne, if_pos hw]
    exact ⟨rfl, rfl⟩
  · simp only [process_file]
    rw [if_neg (by simp [h1]), if_neg h2, if_pos hne, if_neg (by simp [hw])]
    exact ⟨rfl, rfl⟩
  · simp only [process_file]
    rw [if_neg (by simp [h1]), if_neg h2, if_neg (by simp [hne])]
    exact ⟨rfl, rfl⟩

theorem C5_witness :
    (process_file cfgKeys envDoubleSet emOnlyGenreMissing).status = Status.updated :=
  ((C5_writer_gate cfgKeys envDoubleSet emOnlyGenreMissing _ (by decide) (by decide)
    rfl).2.1 (by decide) (by decide)).1

/-- C9: `classify_mood` always returns exactly one of the six fixed labels
and never the empty string; consequently any mood value placed in the
accumulator by `process_file` is non-empty. -/
theorem C9_mood_total :
    (∀ (tags : List String) (genre : String),
      classify_mood tags genre ∈
        ["energetic", "chill", "emotional", "aggressive", "groovy", "neutral"] ∧
      classify_mood tags genre ≠ "") ∧
    (∀ (cfg : Config) (env : FileEnv) (em : TrackMetadata) (m : String),
      (process_file cfg env em).search.nm.mood = some m → m ≠ "") := by
  constructor
  · exact fun tags genre => ⟨classify_mood_mem tags genre, classify_mood_ne_empty tags genre⟩
  · intro cfg env em m hm
    by_cases hs : (missing_fields em).isEmpty = true ∨ (em.artist = "" ∨ em.title = "")
    · rw [process_file_noSearch cfg env em hs] at hm
      simp [SearchState.init, NewMetadata.empty] at hm
    · rcases not_or.mp hs with ⟨h1x, h2⟩
      have h1 : (missing_fields em).isEmpty = false := by simpa using h1x
      rw [process_file_search cfg env em h1 h2] at hm
      rcases run_search_mood_cases (missing_fields em)
        (search_musicbrainz em.artist em.title env.mbResp env.mbGenresResp).1
        (search_lastfm cfg.lastfm_api_key env.lfmResp).1
        (search_discogs cfg.discogs_token env.discogsResp env.discogsReleaseResp).1
        with hc | ⟨tags, gv, hc⟩
      · rw [hc] at hm
        exact absurd hm (by simp)
      · rw [hc, Option.some.injEq] at hm
        exact hm ▸ classify_mood_ne_empty tags gv

theorem C9_witness : ("energetic" : String) ≠ "" :=
  C9_mood_total.2 cfgKeys envMoody emNeedsMood "energetic" (by decide)

/-- C10: when a source supplies the genre as a list (MusicBrainz, Discogs),
the orchestrator applies only its first element, both as the accumulator's
genre value and as the `found_genre` used for mood classification; the
conclusion is independent of the remaining list elements, which are
discarded. -/
theorem C10_genre_first_element (cfg : Config) (env : FileEnv) (em : TrackMetadata)
    (hart : ¬(em.artist = "" ∨ em.title = ""))
    (hgm : em.genre = "") :
    (∀ (mb : MBResult) (g : String) (rest : List String),
      (search_musicbrainz em.artist em.title env.mbResp env.mbGenresResp).1 = some mb →
      mb.genre = g :: rest → g ≠ "" →
      (process_file cfg env em).search.nm.genre = some g ∧
      (process_file cfg env em).search.found_genre = g) ∧
    (∀ (d : DiscogsResult) (g : String) (rest : List String),
      suppliedGenreMB (search_musicbrainz em.artist em.title env.mbResp env.mbGenresResp).1 = none →
      suppliedGenreLfm (search_lastfm cfg.lastfm_api_key env.lfmResp).1 = none →
      (search_discogs cfg.discogs_token env.discogsResp env.discogsReleaseResp).1 = some d →
      d.genre = g :: rest →
      (process_file cfg env em).search.nm.genre = some g ∧
      (process_file cfg env em).search.found_genre = g) := by
  have h1 : (missing_fields em).isEmpty = false := by
    simp [missing_fields, MissingFields.isEmpty, hgm]
  have hmf : (missing_fields em).genre = true := by simp [missing_fields, hgm]
  constructor
  · intro mb g rest hmb hgl hgne
    rw [process_file_search cfg env em h1 hart]
    exact run_search_mb_genre _ _ _ _ g hmf (by simp [suppliedGenreMB, hmb, hgl]) hgne
  · intro d g rest hn1 hn2 hd hgl
    rw [process_file_search cfg env em h1 hart]
    exact run_search_dg_genre _ _ _ _ g hmf hn1 hn2 (by simp [suppliedGenreDg, hd, hgl])

theorem C10_witness :
    (process_file cfgKeys envHouseTechno emNeedsGenre).search.nm.genre = some "House" ∧
    (process_file cfgKeys envHouseTechno emNeedsGenre).search.found_genre = "House" :=
  (C10_genre_first_element cfgKeys envHouseTechno emNeedsGenre (by decide) rfl).1
    { title := "Get Lucky", artist := "Daft Punk", date := "2013-04-19", genre := ["House"] }
    "House" [] (by decide) rfl (by decide)

end TrackEnrich
